import Mathlib

/-
  Verification development for the adaptive-resume repository.

  Shallow embedding of:
  - the fabrication-guard validator (src/lib/generator.ts, validateTailoredResume),
  - the resolved visual design system and theme presets
    (src/lib/claudeConfig.ts: visualSystem + presets + getDesignSystemWithPreset),
  - the PDF page-flow engine (src/unnamed/part_011, exportResumeToPDF),
  - the visual QA scorer (src/unnamed/part_010, checkVisualConsistency).

  Numeric page coordinates are rationals (ℚ); strings are Lean Strings.
  JavaScript truthiness on string fields is modelled explicitly: a field is
  "missing" when it is absent (Option.none, covering undefined / null /
  non-string values) or the empty string (falsy in JS).
-/

namespace AdaptiveResume

/- ===== Data model (ResumeData, src/lib/demoData.ts lines 321-345) ===== -/

structure PersonalInfo where
  name : String
  email : String
  phone : Option String
  location : Option String
  linkedIn : Option String
deriving DecidableEq, Repr

structure WorkExperience where
  company : String
  title : String
  startDate : String
  endDate : String
  bullets : List String
deriving DecidableEq, Repr

structure Education where
  institution : String
  degree : String
  field : String
  graduationDate : String
deriving DecidableEq, Repr

structure ResumeData where
  personalInfo : PersonalInfo
  summary : Option String
  workExperience : List WorkExperience
  education : List Education
  skills : List String
  certifications : Option (List String)
deriving DecidableEq, Repr

/-
  The tailored resume arriving from the rewrite oracle is untrusted JSON
  (`tailoredResume: any` in validateTailoredResume); every field may be
  missing.  Option.none models undefined/null/non-string (non-array) values,
  `some ""` models a present-but-falsy string.
-/

structure TailoredPersonalInfo where
  name : Option String
  email : Option String
  phone : Option String
  location : Option String
  linkedIn : Option String
deriving DecidableEq, Repr

structure TailoredExperience where
  company : Option String
  title : Option String
  startDate : Option String
  endDate : Option String
  bullets : Option (List String)
deriving DecidableEq, Repr

structure TailoredEducation where
  institution : Option String
  degree : Option String
  field : Option String
  graduationDate : Option String
deriving DecidableEq, Repr

structure TailoredResume where
  personalInfo : Option TailoredPersonalInfo
  summary : Option String
  workExperience : Option (List TailoredExperience)
  education : Option (List TailoredEducation)
  skills : Option (List String)
  certifications : Option (List String)
deriving DecidableEq, Repr

/- ===== JS helpers used by the validator ===== -/

/-- JS falsiness of a possibly-missing string: `!x || typeof x !== "string"`. -/
def jsMissing : Option String → Bool
  | none => true
  | some s => s == ""

/-- JS truthiness of a possibly-missing string field. -/
def jsTruthy : Option String → Bool
  | none => false
  | some s => !(s == "")

/-- Back-fill of a required string field from the original
(`if (!x || typeof x !== "string") x = orig`). -/
def fillStr : Option String → String → String
  | none, o => o
  | some s, o => if s = "" then o else s

/-- Back-fill of an optional string field
(`if (!t.phone && original.phone) t.phone = original.phone`). -/
def fillOptStr (t : Option String) (o : Option String) : Option String :=
  if jsMissing t && jsTruthy o then o else t

/-- JS strict equality `a === b` between a possibly-undefined value and a string. -/
def optEqStr : Option String → String → Bool
  | none, _ => false
  | some s, b => s == b

/- ===== Validation error taxonomy =====
   Each constructor corresponds to one `throw new Error(...)` site in
   validateTailoredResume (src/lib/generator.ts lines 262-502); the names
   follow the spec's error taxonomy (§7). -/

inductive ValidationError where
  | identityMismatchName
  | identityMismatchEmail
  | invalidWorkExperienceArray
  | fabricatedEntry
  | unknownExperience (company : Option String)
  | dateTamperingStart (company : String)
  | dateTamperingEnd (company : String)
  | invalidEducationArray
  | fabricatedEducationEntry
  | missingInstitution (index : Nat)
  | invalidCertificationsArray
  | fabricatedCertification (cert : String)
deriving DecidableEq, Repr

instance {e a : Type} [DecidableEq e] [DecidableEq a] : DecidableEq (Except e a) :=
  fun x y =>
    match x, y with
    | .ok v, .ok w =>
      if h : v = w then isTrue (by rw [h]) else isFalse (by intro hc; cases hc; exact h rfl)
    | .error v, .error w =>
      if h : v = w then isTrue (by rw [h]) else isFalse (by intro hc; cases hc; exact h rfl)
    | .ok _, .error _ => isFalse (by intro hc; cases hc)
    | .error _, .ok _ => isFalse (by intro hc; cases hc)

/- ===== Personal info validation (generator.ts lines 267-296) ===== -/

/-- Personal-info stage: copy the whole record from the original when missing,
back-fill each missing field, then require name and email to equal the
original's (throwing otherwise, with no repair). -/
def validatePersonalInfo (t? : Option TailoredPersonalInfo) (orig : PersonalInfo) :
    Except ValidationError PersonalInfo :=
  let t := t?.getD ⟨some orig.name, some orig.email, orig.phone, orig.location, orig.linkedIn⟩
  let name := fillStr t.name orig.name
  let email := fillStr t.email orig.email
  let phone := fillOptStr t.phone orig.phone
  let location := fillOptStr t.location orig.location
  let linkedIn := fillOptStr t.linkedIn orig.linkedIn
  if name ≠ orig.name then .error .identityMismatchName
  else if email ≠ orig.email then .error .identityMismatchEmail
  else .ok ⟨name, email, phone, location, linkedIn⟩

/- ===== Work experience validation (generator.ts lines 302-348) ===== -/

/-- Locate the matching original entry by (company, startDate), falling back to
company alone, exactly as the two chained `find` calls do. -/
def findOriginalExp (origList : List WorkExperience)
    (company startDate : Option String) : Option WorkExperience :=
  match origList.find? (fun o => optEqStr company o.company && optEqStr startDate o.startDate) with
  | some o => some o
  | none => origList.find? (fun o => optEqStr company o.company)

/-- Per-entry work-experience stage: unknown company is fatal; missing
sub-fields are back-filled from the matched original; then both dates must
equal the original's exactly. -/
def validateExp (origList : List WorkExperience) (e : TailoredExperience) :
    Except ValidationError WorkExperience :=
  match findOriginalExp origList e.company e.startDate with
  | none => .error (.unknownExperience e.company)
  | some o =>
    let company := fillStr e.company o.company
    let title := fillStr e.title o.title
    let startDate := fillStr e.startDate o.startDate
    let endDate := fillStr e.endDate o.endDate
    let bullets := e.bullets.getD o.bullets
    if startDate ≠ o.startDate then .error (.dateTamperingStart company)
    else if endDate ≠ o.endDate then .error (.dateTamperingEnd company)
    else .ok ⟨company, title, startDate, endDate, bullets⟩

/-- The `forEach` loop over tailored work experiences, stopping at the first
thrown error. -/
def validateExpList (origList : List WorkExperience) :
    List TailoredExperience → Except ValidationError (List WorkExperience)
  | [] => .ok []
  | e :: rest =>
    match validateExp origList e with
    | .error err => .error err
    | .ok w =>
      match validateExpList origList rest with
      | .error err => .error err
      | .ok ws => .ok (w :: ws)

/- ===== Education validation (generator.ts lines 355-396) ===== -/

/-- Back-fill of an education sub-field: matched original first, generic
placeholder as last resort. -/
def eduFill (t : Option String) (origEdu? : Option Education)
    (proj : Education → String) (dflt : String) : String :=
  match t with
  | none => match origEdu? with
    | some o => proj o
    | none => dflt
  | some s =>
    if s = "" then
      match origEdu? with
      | some o => proj o
      | none => dflt
    else s

/-- Per-entry education stage at position `i`: the matching original is found
by institution, falling back to the positional entry `original.education[i]`;
a missing institution is fatal only when neither fallback exists. -/
def validateEdu (origList : List Education) (i : Nat) (e : TailoredEducation) :
    Except ValidationError Education :=
  let origEdu? := match origList.find? (fun o => optEqStr e.institution o.institution) with
    | some o => some o
    | none => origList[i]?
  let instE : Except ValidationError String :=
    if jsMissing e.institution then
      match origEdu? with
      | some o => .ok o.institution
      | none => .error (.missingInstitution i)
    else .ok (e.institution.getD "")
  match instE with
  | .error err => .error err
  | .ok inst =>
    .ok { institution := inst
          degree := eduFill e.degree origEdu? Education.degree "Degree"
          field := eduFill e.field origEdu? Education.field "General Studies"
          graduationDate := eduFill e.graduationDate origEdu? Education.graduationDate "N/A" }

/-- The indexed `forEach` loop over tailored education entries. -/
def validateEduList (origList : List Education) (i : Nat) :
    List TailoredEducation → Except ValidationError (List Education)
  | [] => .ok []
  | e :: rest =>
    match validateEdu origList i e with
    | .error err => .error err
    | .ok ed =>
      match validateEduList origList (i + 1) rest with
      | .error err => .error err
      | .ok eds => .ok (ed :: eds)

/- ===== Skill normalization and matching (generator.ts lines 398-484) ===== -/

/-- Whitespace class of JS `\s` (restricted to the ASCII whitespace the
repository's data uses). -/
def isWsChar (c : Char) : Bool := c.isWhitespace

/-- JS `toLowerCase` (character-wise; the repository's data is ASCII). -/
def jsToLower (s : String) : String := String.mk (s.data.map Char.toLower)

def trimAux (l : List Char) : List Char :=
  ((l.dropWhile isWsChar).reverse.dropWhile isWsChar).reverse

/-- JS `trim`: strip leading and trailing whitespace. -/
def jsTrim (s : String) : String := String.mk (trimAux s.data)

/-- Whether the first list is a prefix of the second (character-wise). -/
def charsLeadWith : List Char → List Char → Bool
  | [], _ => true
  | _ :: _, [] => false
  | a :: as, b :: bs => a == b && charsLeadWith as bs

/-- Whether the first list occurs as a contiguous sublist of the second. -/
def charsHaveSub : List Char → List Char → Bool
  | pat, [] => charsLeadWith pat []
  | pat, c :: cs => charsLeadWith pat (c :: cs) || charsHaveSub pat cs

/-- JS `endsWith`. -/
def strEndsWith (s suf : String) : Bool := charsLeadWith suf.data.reverse s.data.reverse

def collapseWsAux : List Char → Bool → List Char
  | [], _ => []
  | c :: cs, prevWs =>
    if isWsChar c then
      if prevWs then collapseWsAux cs true
      else ' ' :: collapseWsAux cs true
    else c :: collapseWsAux cs false

/-- `replace(/\s+/g, " ")`: collapse every whitespace run to a single space. -/
def collapseWs (s : String) : String := String.mk (collapseWsAux s.data false)

/-- Character class `[‐-―−-­]` of dash/hyphen glyphs. -/
def isDashChar (c : Char) : Bool :=
  (0x2010 ≤ c.toNat && c.toNat ≤ 0x2015) || c.toNat == 0x2212 ||
  c.toNat == 0x2D || c.toNat == 0xAD

/-- Normalize every dash/hyphen variant to a plain hyphen. -/
def normalizeDashes (s : String) : String :=
  String.mk (s.data.map (fun c => if isDashChar c then '-' else c))

/-- One-occurrence suffix replacement, as a `$`-anchored JS regex replace. -/
def replaceSuffix (s suf rep : String) : String :=
  if strEndsWith s suf then String.mk (s.data.take (s.data.length - suf.data.length)) ++ rep
  else s

/-- normalizeSkill (generator.ts lines 406-416): lowercase, trim, collapse
whitespace, unify dashes, strip one trailing "s", fold api suffixes. -/
def normalizeSkill (s : String) : String :=
  replaceSuffix (replaceSuffix (replaceSuffix
    (normalizeDashes (collapseWs (jsTrim (jsToLower s)))) "s" "") "api" "api") "apis" "api"

/-- JS `String.prototype.includes`: t occurs in s (the empty pattern always
occurs). -/
def jsIncludes (s t : String) : Bool :=
  charsHaveSub t.data s.data

/-- JS global replace of every "-" with the empty string. -/
def stripAllDashes (s : String) : String :=
  String.mk (s.data.filter (fun c => c ≠ '-'))

/-- One disjunct of the `isVariation` check against a single original skill:
exact normalized equality, substring containment either way, or dash-stripped
equality of non-empty results. -/
def skillMatchesOrig (origSkill sn : String) : Bool :=
  let origNorm := normalizeSkill origSkill
  sn == origNorm ||
  (jsIncludes sn origNorm || jsIncludes origNorm sn) ||
  (stripAllDashes sn == stripAllDashes origNorm && (stripAllDashes sn).length > 0)

/-- A tailored skill is kept when its normalization occurs in the normalized
original list or it is a variation of some original skill. -/
def skillIsValid (origSkills : List String) (skill : String) : Bool :=
  let sn := normalizeSkill skill
  (origSkills.map normalizeSkill).contains sn ||
  origSkills.any (fun o => skillMatchesOrig o sn)

/-- Skills stage (generator.ts lines 400-484): missing array falls back to the
original list; invalid skills are collected and filtered out; if filtering
removed something and emptied the list, the original list is restored. -/
def validateSkills (origSkills : List String) (tSkills : Option (List String)) :
    List String :=
  let skills0 := tSkills.getD origSkills
  let invalid := skills0.filter (fun s => !skillIsValid origSkills s)
  if invalid.isEmpty then skills0
  else
    let kept := skills0.filter (fun s => !invalid.contains s)
    if kept.isEmpty then origSkills else kept

/- ===== Certifications validation (generator.ts lines 487-502) ===== -/

/-- `cert.toLowerCase().trim()`. -/
def certNormalize (c : String) : String := jsTrim (jsToLower c)

/-- Certifications stage: when the tailored list is present, every entry must
case-insensitively (after trimming) match an original certification; the
first non-match is a hard failure. -/
def validateCerts (origCerts : Option (List String)) (tCerts : Option (List String)) :
    Except ValidationError (Option (List String)) :=
  match tCerts with
  | none => .ok none
  | some cs =>
    let origLower := (origCerts.getD []).map certNormalize
    match cs.find? (fun c => !origLower.contains (certNormalize c)) with
    | some bad => .error (.fabricatedCertification bad)
    | none => .ok (some cs)

/- ===== The fabrication-guard validator (generator.ts lines 257-503) ===== -/

/-- validateTailoredResume: reconciles the untrusted tailored resume against
the original, returning the repaired resume or the first fatal error, in the
exact stage order of the source. -/
def validateTailoredResume (t : TailoredResume) (orig : ResumeData) :
    Except ValidationError ResumeData :=
  match validatePersonalInfo t.personalInfo orig.personalInfo with
  | .error e => .error e
  | .ok pi =>
    match t.workExperience with
    | none => .error .invalidWorkExperienceArray
    | some wes =>
      if wes.length > orig.workExperience.length then .error .fabricatedEntry
      else
        match validateExpList orig.workExperience wes with
        | .error e => .error e
        | .ok newWes =>
          match t.education with
          | none => .error .invalidEducationArray
          | some edus =>
            if edus.length > orig.education.length then .error .fabricatedEducationEntry
            else
              match validateEduList orig.education 0 edus with
              | .error e => .error e
              | .ok newEdus =>
                let skills := validateSkills orig.skills t.skills
                match validateCerts orig.certifications t.certifications with
                | .error e => .error e
                | .ok certs =>
                  .ok { personalInfo := pi
                        summary := t.summary
                        workExperience := newWes
                        education := newEdus
                        skills := skills
                        certifications := certs }

/- ===== Visual design system (src/lib/claudeConfig.ts, visualSystem part) ===== -/

structure PageMargin where
  top : ℚ
  right : ℚ
  bottom : ℚ
  left : ℚ
deriving DecidableEq, Repr

structure SpacingSystem where
  pageMargin : PageMargin
  sectionGap : ℚ
  jobGap : ℚ
  bulletGap : ℚ
  lineHeight : ℚ
  nameToContact : ℚ
  contactToSummary : ℚ
  headerToContent : ℚ
deriving DecidableEq, Repr

structure TypographyFonts where
  primary : String
  fallback : String
deriving DecidableEq, Repr

structure TypographySizes where
  name : ℚ
  jobTitle : ℚ
  sectionHeader : ℚ
  body : ℚ
  contact : ℚ
  date : ℚ
deriving DecidableEq, Repr

structure TypographyWeights where
  name : String
  sectionHeader : String
  jobTitle : String
  company : String
  body : String
deriving DecidableEq, Repr

structure TypographySystem where
  fonts : TypographyFonts
  sizes : TypographySizes
  weights : TypographyWeights
deriving DecidableEq, Repr

structure TextColors where
  primary : String
  secondary : String
  light : String
deriving DecidableEq, Repr

structure ColorPalette where
  primary : String
  accent : String
  text : TextColors
  background : String
  divider : String
  sectionBg : String
deriving DecidableEq, Repr

structure LayoutRules where
  maxWidth : ℚ
  contentWidth : ℚ
  bulletIndent : ℚ
  dateAlign : String
  textAlign : String
deriving DecidableEq, Repr

structure UnderlineStyle where
  enabled : Bool
  thickness : ℚ
  color : String
  gap : ℚ
deriving DecidableEq, Repr

structure HeaderStyle where
  underline : UnderlineStyle
  uppercase : Bool
  letterSpacing : ℚ
deriving DecidableEq, Repr

structure SectionStyling where
  header : HeaderStyle
deriving DecidableEq, Repr

structure BulletStyle where
  symbol : String
  color : String
  size : ℚ
deriving DecidableEq, Repr

structure CardPadding where
  top : ℚ
  bottom : ℚ
  left : ℚ
  right : ℚ
deriving DecidableEq, Repr

structure NameCard where
  enabled : Bool
  background : String
  padding : CardPadding
  borderRadius : ℚ
deriving DecidableEq, Repr

structure VisualElements where
  bullet : BulletStyle
  nameCard : NameCard
deriving DecidableEq, Repr

structure DesignSystem where
  colors : ColorPalette
  typography : TypographySystem
  spacing : SpacingSystem
  layout : LayoutRules
  sections : SectionStyling
  elements : VisualElements
deriving DecidableEq, Repr

/-- The base DESIGN_SYSTEM constant of visualSystem. -/
def DESIGN_SYSTEM_BASE : DesignSystem :=
  { colors := { primary := "#4A5568", accent := "#5B7FBA"
                text := { primary := "#2D3748", secondary := "#718096", light := "#A0AEC0" }
                background := "#FFFFFF", divider := "#E2E8F0", sectionBg := "#F7FAFC" }
    typography := { fonts := { primary := "Calibri, Arial, sans-serif"
                               fallback := "Arial, Helvetica, sans-serif" }
                    sizes := { name := 24, jobTitle := 13, sectionHeader := 12
                               body := 11, contact := 10, date := 10 }
                    weights := { name := "bold", sectionHeader := "bold", jobTitle := "600"
                                 company := "normal", body := "normal" } }
    spacing := { pageMargin := { top := 40, right := 45, bottom := 40, left := 45 }
                 sectionGap := 18, jobGap := 14, bulletGap := 6, lineHeight := 1.4
                 nameToContact := 4, contactToSummary := 16, headerToContent := 10 }
    layout := { maxWidth := 612, contentWidth := 522, bulletIndent := 20
                dateAlign := "right", textAlign := "left" }
    sections := { header := { underline := { enabled := true, thickness := 1
                                             color := "#E2E8F0", gap := 6 }
                              uppercase := true, letterSpacing := 0.5 } }
    elements := { bullet := { symbol := "•", color := "#4A5568", size := 11 }
                  nameCard := { enabled := true, background := "#F7FAFC"
                                padding := { top := 16, bottom := 16, left := 20, right := 20 }
                                borderRadius := 0 } } }

/-- formatSectionHeader (visualSystem): consults the base design system. -/
def formatSectionHeader (text : String) : String :=
  if DESIGN_SYSTEM_BASE.sections.header.uppercase then text.toUpper else text

/-- calculateLineHeight (visualSystem): fontSize times the BASE line height
(the helper reads the base DESIGN_SYSTEM, not the preset-resolved one). -/
def calculateLineHeight (fontSize : ℚ) : ℚ :=
  fontSize * DESIGN_SYSTEM_BASE.spacing.lineHeight

/- ===== Theme presets (src/lib/claudeConfig.ts, presets part) ===== -/

inductive ThemePreset where
  | classic
  | professional
  | modern
deriving DecidableEq, Repr

/-- A `Partial<DesignSystem>` preset: each top-level group is either absent
(spread of `undefined` keeps the base values) or a complete group record. -/
structure PresetOverride where
  colors : Option ColorPalette
  typography : Option TypographySystem
  spacing : Option SpacingSystem
  layout : Option LayoutRules
  sections : Option SectionStyling
  elements : Option VisualElements
deriving DecidableEq, Repr

def CLASSIC_ATS_PRESET : PresetOverride :=
  { colors := some { primary := "#000000", accent := "#000000"
                     text := { primary := "#000000", secondary := "#000000", light := "#000000" }
                     background := "#FFFFFF", divider := "#000000", sectionBg := "#FFFFFF" }
    typography := some { fonts := { primary := "Arial, Helvetica, sans-serif"
                                    fallback := "Arial, Helvetica, sans-serif" }
                         sizes := { name := 22, jobTitle := 12, sectionHeader := 11
                                    body := 10, contact := 10, date := 10 }
                         weights := { name := "bold", sectionHeader := "bold", jobTitle := "bold"
                                      company := "normal", body := "normal" } }
    spacing := some { pageMargin := { top := 36, right := 36, bottom := 36, left := 36 }
                      sectionGap := 12, jobGap := 10, bulletGap := 4, lineHeight := 1.2
                      nameToContact := 2, contactToSummary := 12, headerToContent := 8 }
    layout := none
    sections := some { header := { underline := { enabled := false, thickness := 0
                                                  color := "#000000", gap := 0 }
                                   uppercase := true, letterSpacing := 0 } }
    elements := some { bullet := { symbol := "•", color := "#000000", size := 10 }
                       nameCard := { enabled := false, background := "#FFFFFF"
                                     padding := { top := 0, bottom := 0, left := 0, right := 0 }
                                     borderRadius := 0 } } }

def PROFESSIONAL_PRESET : PresetOverride :=
  { colors := some { primary := "#4A5568", accent := "#5B7FBA"
                     text := { primary := "#2D3748", secondary := "#718096", light := "#A0AEC0" }
                     background := "#FFFFFF", divider := "#E2E8F0", sectionBg := "#F7FAFC" }
    typography := some { fonts := { primary := "Calibri, Arial, sans-serif"
                                    fallback := "Arial, Helvetica, sans-serif" }
                         sizes := { name := 24, jobTitle := 13, sectionHeader := 12
                                    body := 11, contact := 10, date := 10 }
                         weights := { name := "bold", sectionHeader := "bold", jobTitle := "600"
                                      company := "normal", body := "normal" } }
    spacing := some { pageMargin := { top := 40, right := 45, bottom := 40, left := 45 }
                      sectionGap := 12, jobGap := 14, bulletGap := 6, lineHeight := 1.4
                      nameToContact := 4, contactToSummary := 16, headerToContent := 10 }
    layout := none
    sections := some { header := { underline := { enabled := true, thickness := 1
                                                  color := "#E2E8F0", gap := 6 }
                                   uppercase := true, letterSpacing := 0.5 } }
    elements := some { bullet := { symbol := "•", color := "#4A5568", size := 11 }
                       nameCard := { enabled := true, background := "#F7FAFC"
                                     padding := { top := 16, bottom := 16, left := 20, right := 20 }
                                     borderRadius := 0 } } }

def MODERN_PRESET : PresetOverride :=
  { colors := some { primary := "#2D3748", accent := "#4299E1"
                     text := { primary := "#1A202C", secondary := "#4A5568", light := "#718096" }
                     background := "#FFFFFF", divider := "#CBD5E0", sectionBg := "#EDF2F7" }
    typography := some { fonts := { primary := "Calibri, Arial, sans-serif"
                                    fallback := "Arial, Helvetica, sans-serif" }
                         sizes := { name := 26, jobTitle := 14, sectionHeader := 13
                                    body := 11, contact := 10, date := 10 }
                         weights := { name := "bold", sectionHeader := "bold", jobTitle := "600"
                                      company := "normal", body := "normal" } }
    spacing := some { pageMargin := { top := 36, right := 40, bottom := 36, left := 40 }
                      sectionGap := 20, jobGap := 16, bulletGap := 8, lineHeight := 1.5
                      nameToContact := 6, contactToSummary := 18, headerToContent := 12 }
    layout := none
    sections := some { header := { underline := { enabled := true, thickness := 2
                                                  color := "#CBD5E0", gap := 8 }
                                   uppercase := true, letterSpacing := 1 } }
    elements := some { bullet := { symbol := "•", color := "#4299E1", size := 12 }
                       nameCard := { enabled := true, background := "#EDF2F7"
                                     padding := { top := 20, bottom := 20, left := 24, right := 24 }
                                     borderRadius := 4 } } }

/-- getDesignSystemWithPreset: deep-merge of the base design system with the
selected preset.  Each preset group, when supplied, is a complete record, so
the nested object spreads resolve to the preset's values; an absent group
(layout in every preset) keeps the base values. -/
def getDesignSystemWithPreset (preset : ThemePreset) : DesignSystem :=
  let base := DESIGN_SYSTEM_BASE
  let presetConfig := match preset with
    | .classic => CLASSIC_ATS_PRESET
    | .modern => MODERN_PRESET
    | .professional => PROFESSIONAL_PRESET
  { colors := presetConfig.colors.getD base.colors
    typography :=
      { fonts := (presetConfig.typography.map TypographySystem.fonts).getD base.typography.fonts
        sizes := (presetConfig.typography.map TypographySystem.sizes).getD base.typography.sizes
        weights := (presetConfig.typography.map TypographySystem.weights).getD base.typography.weights }
    spacing :=
      let sp := presetConfig.spacing.getD base.spacing
      { sp with pageMargin := (presetConfig.spacing.map SpacingSystem.pageMargin).getD base.spacing.pageMargin }
    layout := presetConfig.layout.getD base.layout
    sections :=
      { header :=
          let hd := (presetConfig.sections.map SectionStyling.header).getD base.sections.header
          { hd with underline := ((presetConfig.sections.map SectionStyling.header).map HeaderStyle.underline).getD base.sections.header.underline } }
    elements :=
      { bullet := (presetConfig.elements.map VisualElements.bullet).getD base.elements.bullet
        nameCard :=
          let nc := (presetConfig.elements.map VisualElements.nameCard).getD base.elements.nameCard
          { nc with padding := ((presetConfig.elements.map VisualElements.nameCard).map NameCard.padding).getD base.elements.nameCard.padding } } }

/- ===== The PDF page-flow engine (src/unnamed/part_011, exportResumeToPDF) =====

   The jsPDF document is modelled as an ordered instruction stream of
   positioned text, rules and rectangles, plus the current page number.
   `doc.splitTextToSize` is the rendering library's text-measurement
   primitive; it is an injected pure function `SplitFn` of the font size,
   the maximum width, and the text. -/

inductive PdfInstr where
  | text (page : Nat) (x y : ℚ) (content : String) (size : ℚ)
      (weight color align : String)
  | rule (page : Nat) (x1 y1 x2 y2 : ℚ) (thickness : ℚ) (color : String)
  | rect (page : Nat) (x y w h : ℚ) (color : String)
deriving DecidableEq, Repr

/-- splitTextToSize: fontSize → maxWidth → text → wrapped lines. -/
def SplitFn : Type := ℚ → ℚ → String → List String

structure RenderState where
  page : Nat
  instrs : List PdfInstr
  yPos : ℚ
deriving DecidableEq, Repr

/-- Page height: 11 inches (792pt), fixed in the source. -/
def pageHeight : ℚ := 792

/-- addText helper: emits positioned text on the current page. -/
def addTextI (st : RenderState) (content : String) (x y size : ℚ)
    (weight color align : String) : RenderState :=
  { st with instrs := st.instrs ++ [.text st.page x y content size weight color align] }

/-- checkPageBreak (part_011 lines 190-200): if the required height would
cross the bottom margin, add a page and reset the module cursor to the top
margin.  `currentY = none` models a call that falls back to the module-level
yPosition. -/
def checkPageBreak (ds : DesignSystem) (st : RenderState) (requiredHeight : ℚ)
    (currentY : Option ℚ) : RenderState × Bool :=
  let yToCheck := currentY.getD st.yPos
  if yToCheck + requiredHeight > pageHeight - ds.spacing.pageMargin.bottom then
    ({ st with page := st.page + 1, yPos := ds.spacing.pageMargin.top }, true)
  else (st, false)

/-- addSectionHeader: header text (uppercase via the base design system),
optional underline rule, then the header-to-content gap. -/
def addSectionHeader (ds : DesignSystem) (st : RenderState) (text : String)
    (y : ℚ) : RenderState × ℚ :=
  let x := ds.spacing.pageMargin.left
  let headerText := if ds.sections.header.uppercase then formatSectionHeader text else text
  let st1 := addTextI st headerText x y ds.typography.sizes.sectionHeader
    ds.typography.weights.sectionHeader ds.colors.primary "left"
  let newY := y + calculateLineHeight ds.typography.sizes.sectionHeader
  if ds.sections.header.underline.enabled then
    let lineY := newY + ds.sections.header.underline.gap
    let st2 := { st1 with instrs := st1.instrs ++
      [.rule st1.page x lineY (ds.layout.maxWidth - ds.spacing.pageMargin.right) lineY
        ds.sections.header.underline.thickness ds.sections.header.underline.color] }
    (st2, lineY + ds.sections.header.underline.gap + ds.spacing.headerToContent)
  else (st1, newY + ds.spacing.headerToContent)

/-- Strip every `[LESS_RELEVANT]` marker (display only): left-to-right scan
removing each non-overlapping occurrence, as the JS global regex replace does.
Fuelled by the string length to keep the recursion structural. -/
def removeMarkerFuel (marker : List Char) : Nat → List Char → List Char
  | 0, l => l
  | _ + 1, [] => []
  | n + 1, c :: cs =>
    if charsLeadWith marker (c :: cs) then
      removeMarkerFuel marker n (List.drop (marker.length - 1) cs)
    else c :: removeMarkerFuel marker n cs

def removeLessRelevant (s : String) : String :=
  String.mk (removeMarkerFuel "[LESS_RELEVANT]".data s.data.length s.data)

/-- addBullet: bullet symbol, wrapped text with hanging indent, bullet gap. -/
def addBulletI (ds : DesignSystem) (split : SplitFn) (st : RenderState)
    (text : String) (x y : ℚ) : RenderState × ℚ :=
  let textX := x + ds.layout.bulletIndent
  let maxWidth := ds.layout.contentWidth - ds.layout.bulletIndent
  let displayText := (removeLessRelevant text).trim
  if displayText = "" then (st, y)
  else
    let st1 := addTextI st ds.elements.bullet.symbol x y ds.elements.bullet.size
      "normal" ds.elements.bullet.color "left"
    let lines := split ds.typography.sizes.body maxWidth displayText
    let lineHeight := calculateLineHeight ds.typography.sizes.body
    let st2 := lines.enum.foldl (fun acc p =>
      addTextI acc p.2 textX (y + p.1 * lineHeight) ds.typography.sizes.body
        "normal" ds.colors.text.primary "left") st1
    (st2, y + lines.length * lineHeight + ds.spacing.bulletGap)

/-- Truthiness filter for contact parts. -/
def optPart : Option String → List String
  | none => []
  | some s => if s = "" then [] else [s]

/-- renderNameSection: optional name card, centered name, centered contact
line joined with " | ". -/
def renderNameSection (ds : DesignSystem) (st : RenderState) (data : ResumeData) :
    RenderState × ℚ :=
  let y := ds.spacing.pageMargin.top
  let st0 :=
    if ds.elements.nameCard.enabled then
      let cardHeight := ds.typography.sizes.name + ds.spacing.nameToContact +
        ds.typography.sizes.contact + ds.elements.nameCard.padding.top +
        ds.elements.nameCard.padding.bottom
      { st with instrs := st.instrs ++
        [.rect st.page 0 (y - ds.elements.nameCard.padding.top) ds.layout.maxWidth
          cardHeight ds.elements.nameCard.background] }
    else st
  let centerX := ds.layout.maxWidth / 2
  let st1 := addTextI st0 data.personalInfo.name centerX y ds.typography.sizes.name
    ds.typography.weights.name ds.colors.accent "center"
  let y1 := y + calculateLineHeight ds.typography.sizes.name + ds.spacing.nameToContact
  let contactParts :=
    (if data.personalInfo.email = "" then [] else [data.personalInfo.email]) ++
    optPart data.personalInfo.phone ++ optPart data.personalInfo.location ++
    optPart data.personalInfo.linkedIn
  if contactParts.isEmpty then (st1, y1 + ds.spacing.contactToSummary)
  else
    let contactLine := String.intercalate " | " contactParts
    let st2 := addTextI st1 contactLine centerX y1 ds.typography.sizes.contact
      "normal" ds.colors.text.secondary "center"
    (st2, y1 + calculateLineHeight ds.typography.sizes.contact + ds.spacing.contactToSummary)

/-- Shared per-line loop of renderSummary and renderSkills: page-break check,
reset to the top margin on break, emit the line, advance by the line height. -/
def renderLinesWithBreak (ds : DesignSystem) (st : RenderState) (lines : List String)
    (x : ℚ) (y : ℚ) (size lineHeight : ℚ) (color : String) : RenderState × ℚ :=
  lines.foldl (fun acc line =>
    let stA := acc.1
    let yA := acc.2
    let broken := checkPageBreak ds stA lineHeight (some yA)
    let y1 := if broken.2 then ds.spacing.pageMargin.top else yA
    (addTextI broken.1 line x y1 size "normal" color "left", y1 + lineHeight)) (st, y)

/-- renderSummary. -/
def renderSummary (ds : DesignSystem) (split : SplitFn) (st : RenderState)
    (summary : String) (startY : ℚ) : RenderState × ℚ :=
  let hd := addSectionHeader ds st "PROFESSIONAL SUMMARY" startY
  let lines := split ds.typography.sizes.body ds.layout.contentWidth summary
  let res := renderLinesWithBreak ds hd.1 lines ds.spacing.pageMargin.left hd.2
    ds.typography.sizes.body (calculateLineHeight ds.typography.sizes.body)
    ds.colors.text.primary
  (res.1, res.2 + ds.spacing.sectionGap)

/-- One job of renderWorkExperience: estimated-height page-break check, title
and right-aligned dates on one baseline, company line, bullet loop with
per-bullet break checks, job gap except after the last job. -/
def renderJob (ds : DesignSystem) (split : SplitFn) (len : Nat)
    (acc : RenderState × ℚ) (p : Nat × WorkExperience) : RenderState × ℚ :=
  let st := acc.1
  let y := acc.2
  let ix := p.1
  let job := p.2
  let x := ds.spacing.pageMargin.left
  let rightX := ds.layout.maxWidth - ds.spacing.pageMargin.right
  let lhTitle := calculateLineHeight ds.typography.sizes.jobTitle
  let lhBody := calculateLineHeight ds.typography.sizes.body
  let estimatedHeight := lhTitle + lhBody +
    job.bullets.length * (lhBody + ds.spacing.bulletGap) + ds.spacing.jobGap
  let br := checkPageBreak ds st estimatedHeight (some y)
  let y0 := if br.2 then ds.spacing.pageMargin.top else y
  let st1 := addTextI br.1 job.title x y0 ds.typography.sizes.jobTitle
    ds.typography.weights.jobTitle ds.colors.text.primary "left"
  let dateText := job.startDate ++ " - " ++ job.endDate
  let st2 := addTextI st1 dateText rightX y0 ds.typography.sizes.date
    "normal" ds.colors.text.secondary "right"
  let y1 := y0 + lhTitle
  let st3 := addTextI st2 job.company x y1 ds.typography.sizes.body
    ds.typography.weights.company ds.colors.text.secondary "left"
  let y2 := y1 + lhBody + ds.spacing.bulletGap
  let bres := job.bullets.foldl (fun acc2 bullet =>
    let brB := checkPageBreak ds acc2.1 (lhBody * 2) (some acc2.2)
    let yB := if brB.2 then ds.spacing.pageMargin.top else acc2.2
    addBulletI ds split brB.1 bullet x yB) (st3, y2)
  let y4 := if ix < len - 1 then bres.2 + ds.spacing.jobGap else bres.2
  (bres.1, y4)

/-- renderWorkExperience. -/
def renderWorkExperience (ds : DesignSystem) (split : SplitFn) (st : RenderState)
    (jobs : List WorkExperience) (startY : ℚ) : RenderState × ℚ :=
  let hd := addSectionHeader ds st "PROFESSIONAL EXPERIENCE" startY
  let res := jobs.enum.foldl (renderJob ds split jobs.length) (hd.1, hd.2)
  (res.1, res.2 + ds.spacing.sectionGap)

/-- renderEducation. -/
def renderEducation (ds : DesignSystem) (st : RenderState)
    (education : List Education) (startY : ℚ) : RenderState × ℚ :=
  let hd := addSectionHeader ds st "EDUCATION" startY
  let lhBody := calculateLineHeight ds.typography.sizes.body
  let res := education.foldl (fun acc edu =>
    let x := ds.spacing.pageMargin.left
    let br := checkPageBreak ds acc.1 (lhBody * 2) (some acc.2)
    let yE := if br.2 then ds.spacing.pageMargin.top else acc.2
    let stE1 := addTextI br.1 (edu.degree ++ " in " ++ edu.field) x yE
      ds.typography.sizes.body ds.typography.weights.jobTitle ds.colors.text.primary "left"
    let yE1 := yE + lhBody
    let stE2 := addTextI stE1 (edu.institution ++ " | " ++ edu.graduationDate) x yE1
      ds.typography.sizes.body "normal" ds.colors.text.secondary "left"
    (stE2, yE1 + lhBody + ds.spacing.jobGap)) (hd.1, hd.2)
  (res.1, res.2 + ds.spacing.sectionGap)

/-- renderSkills. -/
def renderSkills (ds : DesignSystem) (split : SplitFn) (st : RenderState)
    (skills : List String) (startY : ℚ) : RenderState × ℚ :=
  let hd := addSectionHeader ds st "SKILLS" startY
  let skillsText := String.intercalate ", " skills
  let lines := split ds.typography.sizes.body ds.layout.contentWidth skillsText
  let res := renderLinesWithBreak ds hd.1 lines ds.spacing.pageMargin.left hd.2
    ds.typography.sizes.body (calculateLineHeight ds.typography.sizes.body)
    ds.colors.text.primary
  (res.1, res.2 + ds.spacing.sectionGap)

/-- renderCertifications (no trailing section gap). -/
def renderCertifications (ds : DesignSystem) (split : SplitFn) (st : RenderState)
    (certifications : List String) (startY : ℚ) : RenderState × ℚ :=
  let hd := addSectionHeader ds st "CERTIFICATIONS" startY
  certifications.foldl (fun acc cert =>
    let br := checkPageBreak ds acc.1 (calculateLineHeight ds.typography.sizes.body) (some acc.2)
    let yC := if br.2 then ds.spacing.pageMargin.top else acc.2
    addBulletI ds split br.1 cert ds.spacing.pageMargin.left yC) (hd.1, hd.2)

/-- The main rendering flow of exportResumeToPDF (instruction stream and page
count): name/contact, then each present section in the fixed order, with the
skills section's trailing gap removed when certifications do not follow. -/
def renderResumeDoc (split : SplitFn) (resumeData : ResumeData)
    (theme : ThemePreset) : RenderState :=
  let ds := getDesignSystemWithPreset theme
  let st0 : RenderState := { page := 1, instrs := [], yPos := ds.spacing.pageMargin.top }
  let r1 := renderNameSection ds st0 resumeData
  let r2 := match resumeData.summary with
    | some s => if s = "" then r1 else renderSummary ds split r1.1 s r1.2
    | none => r1
  let r3 := if resumeData.workExperience.length > 0 then
      renderWorkExperience ds split r2.1 resumeData.workExperience r2.2
    else r2
  let r4 := if resumeData.education.length > 0 then
      renderEducation ds r3.1 resumeData.education r3.2
    else r3
  let r5 := if resumeData.skills.length > 0 then
      let rs := renderSkills ds split r4.1 resumeData.skills r4.2
      let hasNext : Bool := match resumeData.certifications with
        | some certs => decide (certs.length > 0)
        | none => false
      (rs.1, if hasNext then rs.2 else rs.2 - ds.spacing.sectionGap)
    else r4
  let r6 := match resumeData.certifications with
    | some certs => if certs.length > 0 then renderCertifications ds split r5.1 certs r5.2 else r5
    | none => r5
  r6.1

structure PdfMetadata where
  title : String
  subject : String
  author : String
  keywords : String
  creator : String
  theme : ThemePreset
  atsOptimized : Bool
  visualScore : ℚ
  generatedDate : String
deriving DecidableEq, Repr

structure PdfDocOutput where
  pages : Nat
  instrs : List PdfInstr
  metadata : PdfMetadata
deriving DecidableEq, Repr

/-- exportResumeToPDF: renders the document and attaches the embedded
properties and visual metadata.  `now` is the wall clock read by
`new Date().toISOString()` when the visual metadata is stamped; it reaches
only the metadata, never the layout. -/
def exportResumeToPDF (split : SplitFn) (resumeData : ResumeData)
    (theme : ThemePreset) (now : String) : PdfDocOutput :=
  { pages := (renderResumeDoc split resumeData theme).page
    instrs := (renderResumeDoc split resumeData theme).instrs
    metadata := { title := resumeData.personalInfo.name ++ " - Resume"
                  subject := "Professional Resume"
                  author := "Adaptive Resume"
                  keywords := "ATS-optimized, professional, tailored, resume"
                  creator := "Adaptive Resume Engine v2.0"
                  theme := theme
                  atsOptimized := true
                  visualScore := 100
                  generatedDate := now } }

/- ===== Visual QA scorer (src/unnamed/part_010, checkVisualConsistency) =====

   The scorer inspects only the structured resume data (the PDF blob argument
   of the source function is never read), so the blob is omitted here. -/

structure QATolerance where
  spacing : ℚ
  color : ℚ
deriving DecidableEq, Repr

structure QARequiredElements where
  name : Bool
  contact : Bool
  sections : List String
deriving DecidableEq, Repr

structure QAConfig where
  tolerance : QATolerance
  requiredElements : QARequiredElements
deriving DecidableEq, Repr

def QA_CONFIG : QAConfig :=
  { tolerance := { spacing := 2, color := 5 }
    requiredElements := { name := true, contact := true
                          sections := ["WORK EXPERIENCE", "EDUCATION", "SKILLS"] } }

/-- checkTypography: required-field and length heuristics over the data. -/
def checkTypography (data : ResumeData) : List String :=
  (if data.personalInfo.name == "" || data.personalInfo.name.trim == "" then
     ["Missing or empty name"] else []) ++
  (if !(data.personalInfo.name == "") && decide (data.personalInfo.name.length > 100) then
     ["Name is unusually long (may cause formatting issues)"] else []) ++
  (if data.personalInfo.email == "" && !(jsTruthy data.personalInfo.phone) &&
      !(jsTruthy data.personalInfo.location) then
     ["Missing contact information"] else []) ++
  (data.workExperience.enum.foldl (fun acc p =>
    acc ++
    (if p.2.title == "" || p.2.title.trim == "" then
       [s!"Work experience {p.1 + 1}: Missing job title"] else []) ++
    (if p.2.company == "" || p.2.company.trim == "" then
       [s!"Work experience {p.1 + 1}: Missing company name"] else []) ++
    (if p.2.bullets.length == 0 then
       [s!"Work experience {p.1 + 1}: Missing bullet points"] else []) ++
    (p.2.bullets.enum.foldl (fun acc2 q =>
      acc2 ++
      (if decide (q.2.length > 200) then
         [s!"Work experience {p.1 + 1}, bullet {q.1 + 1}: Bullet point is very long (may cause wrapping issues)"]
       else [])) [])) []) ++
  (data.education.enum.foldl (fun acc p =>
    acc ++
    (if p.2.institution == "" || p.2.institution.trim == "" then
       [s!"Education {p.1 + 1}: Missing institution name"] else []) ++
    (if p.2.degree == "" || p.2.degree.trim == "" then
       [s!"Education {p.1 + 1}: Missing degree"] else [])) []) ++
  (if data.skills.length == 0 then ["Missing skills section"] else [])

/-- estimatePageCount: sum of estimated line heights against the base design
system's page geometry, divided by the usable height and rounded up. -/
def estimatePageCount (data : ResumeData) : ℤ :=
  let B := DESIGN_SYSTEM_BASE
  let usableHeight := pageHeight - B.spacing.pageMargin.top - B.spacing.pageMargin.bottom
  let h0 := B.spacing.pageMargin.top +
    B.typography.sizes.name * B.spacing.lineHeight + B.spacing.nameToContact +
    B.typography.sizes.contact * B.spacing.lineHeight + B.spacing.contactToSummary
  let h1 := match data.summary with
    | some s =>
      if s = "" then h0
      else
        let summaryLines : ℤ := ⌈(s.length : ℚ) / 80⌉
        h0 + B.typography.sizes.sectionHeader * B.spacing.lineHeight +
          B.spacing.headerToContent +
          (summaryLines : ℚ) * B.typography.sizes.body * B.spacing.lineHeight +
          B.spacing.sectionGap
    | none => h0
  let h2 := data.workExperience.foldl (fun acc exp =>
    let afterHead := acc + B.typography.sizes.sectionHeader * B.spacing.lineHeight +
      B.spacing.headerToContent +
      B.typography.sizes.jobTitle * B.spacing.lineHeight +
      B.typography.sizes.body * B.spacing.lineHeight + B.spacing.bulletGap
    let afterBullets := afterHead +
      exp.bullets.length * (B.typography.sizes.body * B.spacing.lineHeight + B.spacing.bulletGap)
    afterBullets + B.spacing.jobGap) h1
  let h3 := h2 + B.spacing.sectionGap
  let h4 := data.education.foldl (fun acc _ =>
    acc + B.typography.sizes.body * B.spacing.lineHeight * 2 + B.spacing.jobGap) h3
  let h5 := h4 + B.spacing.sectionGap
  let skillsText := String.intercalate ", " data.skills
  let skillsLines : ℤ := ⌈(skillsText.length : ℚ) / 80⌉
  let h6 := h5 + B.typography.sizes.sectionHeader * B.spacing.lineHeight +
    B.spacing.headerToContent +
    (skillsLines : ℚ) * B.typography.sizes.body * B.spacing.lineHeight
  ⌈h6 / usableHeight⌉

/-- checkSpacing: page-length estimate and per-job bullet-count heuristics. -/
def checkSpacing (data : ResumeData) : List String :=
  (if (estimatePageCount data : ℚ) > DESIGN_SYSTEM_BASE.layout.maxWidth / 612 then
     [s!"Resume may exceed recommended length (estimated {estimatePageCount data} pages)"]
   else []) ++
  (data.workExperience.enum.foldl (fun acc p =>
    acc ++
    (if decide (p.2.bullets.length > 8) then
       [s!"Work experience {p.1 + 1}: Too many bullet points ({p.2.bullets.length}), consider reducing to 5-6"]
     else [])) [])

/-- The negated character class of checkVisualElements, over UTF-16 code
units: control characters below U+0020 and the C1 range between U+007E and
U+00A0 match; astral code points are surrogate pairs inside U+00A0..U+FFFF in
JS and never match. -/
def hasUnusualChar (s : String) : Bool :=
  s.data.any (fun c => c.toNat < 0x20 || (0x7E < c.toNat && c.toNat < 0xA0))

/-- One checkText call of checkVisualElements. -/
def checkTextIssue (text context : String) : List String :=
  if hasUnusualChar text then
    [context ++ ": Contains unusual characters that may cause rendering issues"]
  else []

/-- checkVisualElements: unusual-character detection. -/
def checkVisualElements (data : ResumeData) : List String :=
  checkTextIssue data.personalInfo.name "Name" ++
  (data.workExperience.enum.foldl (fun acc p =>
    acc ++
    checkTextIssue p.2.title s!"Work experience {p.1 + 1} title" ++
    checkTextIssue p.2.company s!"Work experience {p.1 + 1} company" ++
    (p.2.bullets.enum.foldl (fun acc2 q =>
      acc2 ++ checkTextIssue q.2 s!"Work experience {p.1 + 1}, bullet {q.1 + 1}") [])) [])

/-- checkRequiredElements: presence of the configured required elements.
These issues are reported but reduce no sub-score. -/
def checkRequiredElements (data : ResumeData) : List String :=
  (if QA_CONFIG.requiredElements.name && data.personalInfo.name == "" then
     ["Missing required element: Name"] else []) ++
  (if QA_CONFIG.requiredElements.contact && data.personalInfo.email == "" &&
      !(jsTruthy data.personalInfo.phone) then
     ["Missing required element: Contact information"] else []) ++
  (if QA_CONFIG.requiredElements.sections.contains "WORK EXPERIENCE" &&
      data.workExperience.length == 0 then
     ["Missing required section: Work Experience"] else []) ++
  (if QA_CONFIG.requiredElements.sections.contains "EDUCATION" &&
      data.education.length == 0 then
     ["Missing required section: Education"] else []) ++
  (if QA_CONFIG.requiredElements.sections.contains "SKILLS" &&
      data.skills.length == 0 then
     ["Missing required section: Skills"] else [])

structure TypographyScores where
  fontConsistency : ℚ
  sizeConsistency : ℚ
  weightConsistency : ℚ
deriving DecidableEq, Repr

structure SpacingScores where
  marginConsistency : ℚ
  sectionGaps : ℚ
  bulletAlignment : ℚ
deriving DecidableEq, Repr

structure VisualScores where
  colorPalette : ℚ
  lineAlignment : ℚ
  whiteSpace : ℚ
deriving DecidableEq, Repr

structure VisualQAReport where
  typography : TypographyScores
  spacing : SpacingScores
  visual : VisualScores
  overall : ℚ
  issues : List String
deriving DecidableEq, Repr

/-- JS Math.round (half toward positive infinity) of x to two decimals:
Math.round(overall * 100) / 100. -/
def jsRound2 (x : ℚ) : ℚ := ((⌊x * 100 + 1 / 2⌋ : ℤ) : ℚ) / 100

/-- checkVisualConsistency: nine sub-scores, of which only
typography.fontConsistency, spacing.marginConsistency and visual.colorPalette
are ever reduced (clamped at 0); the overall score is their mean, rounded to
two decimals.  Required-element issues are appended to the issue list twice
(once in the loop, once at the return spread) and deduct nothing. -/
def checkVisualConsistency (data : ResumeData) : VisualQAReport :=
  let typographyIssues := checkTypography data
  let spacingIssues := checkSpacing data
  let visualIssues := checkVisualElements data
  let requiredIssues := checkRequiredElements data
  let fontConsistency : ℚ :=
    if typographyIssues.length > 0 then max 0 (100 - typographyIssues.length * 10) else 100
  let marginConsistency : ℚ :=
    if spacingIssues.length > 0 then max 0 (100 - spacingIssues.length * 10) else 100
  let colorPalette : ℚ :=
    if visualIssues.length > 0 then max 0 (100 - visualIssues.length * 10) else 100
  let issues := typographyIssues ++ spacingIssues ++ visualIssues ++ requiredIssues
  let overall : ℚ :=
    (fontConsistency + 100 + 100 + marginConsistency + 100 + 100 +
      colorPalette + 100 + 100) / 9
  { typography := { fontConsistency := fontConsistency, sizeConsistency := 100
                    weightConsistency := 100 }
    spacing := { marginConsistency := marginConsistency, sectionGaps := 100
                 bulletAlignment := 100 }
    visual := { colorPalette := colorPalette, lineAlignment := 100, whiteSpace := 100 }
    overall := jsRound2 overall
    issues := issues ++ requiredIssues }

/- ===== Helper lemmas about the validator ===== -/

theorem validatePersonalInfo_ok {t? : Option TailoredPersonalInfo} {orig pi : PersonalInfo}
    (h : validatePersonalInfo t? orig = .ok pi) :
    pi.name = orig.name ∧ pi.email = orig.email := by
  unfold validatePersonalInfo at h
  dsimp only at h
  split_ifs at h with h1 h2
  injection h with h3
  subst h3
  exact ⟨not_not.mp h1, not_not.mp h2⟩

theorem validatePersonalInfo_name_mismatch {tpi : TailoredPersonalInfo} {orig : PersonalInfo}
    (h : fillStr tpi.name orig.name ≠ orig.name) :
    validatePersonalInfo (some tpi) orig = .error .identityMismatchName := by
  unfold validatePersonalInfo
  simp only [Option.getD_some]
  rw [if_pos h]

theorem validatePersonalInfo_email_mismatch {tpi : TailoredPersonalInfo} {orig : PersonalInfo}
    (h1 : fillStr tpi.name orig.name = orig.name)
    (h2 : fillStr tpi.email orig.email ≠ orig.email) :
    validatePersonalInfo (some tpi) orig = .error .identityMismatchEmail := by
  unfold validatePersonalInfo
  simp only [Option.getD_some]
  rw [if_neg (not_not.mpr h1), if_pos h2]

/-- Inversion of a successful run of the whole validator. -/
theorem validate_ok_inv {t : TailoredResume} {orig r : ResumeData}
    (h : validateTailoredResume t orig = .ok r) :
    ∃ pi wes newWes edus newEdus certs,
      validatePersonalInfo t.personalInfo orig.personalInfo = .ok pi ∧
      t.workExperience = some wes ∧
      wes.length ≤ orig.workExperience.length ∧
      validateExpList orig.workExperience wes = .ok newWes ∧
      t.education = some edus ∧
      edus.length ≤ orig.education.length ∧
      validateEduList orig.education 0 edus = .ok newEdus ∧
      validateCerts orig.certifications t.certifications = .ok certs ∧
      r = { personalInfo := pi, summary := t.summary, workExperience := newWes,
            education := newEdus, skills := validateSkills orig.skills t.skills,
            certifications := certs } := by
  unfold validateTailoredResume at h
  cases hpi : validatePersonalInfo t.personalInfo orig.personalInfo with
  | error e => rw [hpi] at h; cases h
  | ok pi =>
  rw [hpi] at h
  dsimp only at h
  cases hwes : t.workExperience with
  | none => rw [hwes] at h; cases h
  | some wes =>
  rw [hwes] at h
  dsimp only at h
  by_cases hlen : wes.length > orig.workExperience.length
  · rw [if_pos hlen] at h; cases h
  rw [if_neg hlen] at h
  cases hexp : validateExpList orig.workExperience wes with
  | error e => rw [hexp] at h; cases h
  | ok newWes =>
  rw [hexp] at h
  dsimp only at h
  cases hedus : t.education with
  | none => rw [hedus] at h; cases h
  | some edus =>
  rw [hedus] at h
  dsimp only at h
  by_cases hlen2 : edus.length > orig.education.length
  · rw [if_pos hlen2] at h; cases h
  rw [if_neg hlen2] at h
  cases hedu : validateEduList orig.education 0 edus with
  | error e => rw [hedu] at h; cases h
  | ok newEdus =>
  rw [hedu] at h
  dsimp only at h
  cases hcerts : validateCerts orig.certifications t.certifications with
  | error e => rw [hcerts] at h; cases h
  | ok certs =>
  rw [hcerts] at h
  dsimp only at h
  injection h with h3
  exact ⟨pi, wes, newWes, edus, newEdus, certs, rfl, rfl,
    Nat.le_of_not_lt hlen, hexp, rfl, Nat.le_of_not_lt hlen2, hedu, rfl, h3.symm⟩

theorem validateExpList_length {origList : List WorkExperience} :
    ∀ {l : List TailoredExperience} {res : List WorkExperience},
      validateExpList origList l = .ok res → res.length = l.length := by
  intro l
  induction l with
  | nil =>
    intro res h
    unfold validateExpList at h
    injection h with h3
    rw [← h3]
    rfl
  | cons e rest ih =>
    intro res h
    unfold validateExpList at h
    cases he : validateExp origList e with
    | error err => rw [he] at h; cases h
    | ok w =>
      rw [he] at h
      cases hr : validateExpList origList rest with
      | error err => rw [hr] at h; cases h
      | ok ws =>
        rw [hr] at h
        injection h with h3
        rw [← h3]
        simp [ih hr]

theorem validateEduList_length {origList : List Education} :
    ∀ {l : List TailoredEducation} {i : Nat} {res : List Education},
      validateEduList origList i l = .ok res → res.length = l.length := by
  intro l
  induction l with
  | nil =>
    intro i res h
    unfold validateEduList at h
    injection h with h3
    rw [← h3]
    rfl
  | cons e rest ih =>
    intro i res h
    unfold validateEduList at h
    cases he : validateEdu origList i e with
    | error err => rw [he] at h; cases h
    | ok ed =>
      rw [he] at h
      cases hr : validateEduList origList (i + 1) rest with
      | error err => rw [hr] at h; cases h
      | ok eds =>
        rw [hr] at h
        injection h with h3
        rw [← h3]
        simp [ih hr]

/- ===== C1 and C2 ===== -/

/-- C1: validation succeeds only when the (back-filled) tailored name and
email equal the original's; a differing name or email makes the validator
fail with the corresponding identity-mismatch error, so every accepted output
carries the original name and email. -/
theorem truth_lock_identity (t : TailoredResume) (orig : ResumeData) :
    (∀ r, validateTailoredResume t orig = .ok r →
      r.personalInfo.name = orig.personalInfo.name ∧
      r.personalInfo.email = orig.personalInfo.email) ∧
    (∀ tpi, t.personalInfo = some tpi →
      (fillStr tpi.name orig.personalInfo.name ≠ orig.personalInfo.name →
        validateTailoredResume t orig = .error .identityMismatchName) ∧
      (fillStr tpi.name orig.personalInfo.name = orig.personalInfo.name →
       fillStr tpi.email orig.personalInfo.email ≠ orig.personalInfo.email →
        validateTailoredResume t orig = .error .identityMismatchEmail)) := by
  constructor
  · intro r h
    obtain ⟨pi, _, _, _, _, _, hpi, -, -, -, -, -, -, -, hr⟩ := validate_ok_inv h
    rw [hr]
    exact validatePersonalInfo_ok hpi
  · intro tpi htpi
    constructor
    · intro hne
      unfold validateTailoredResume
      rw [htpi, validatePersonalInfo_name_mismatch hne]
    · intro heq hne
      unfold validateTailoredResume
      rw [htpi, validatePersonalInfo_email_mismatch heq hne]


/-- Fixture: a small original resume used by the concrete scenarios. -/
def exPersonal : PersonalInfo :=
  { name := "Ada Lovelace", email := "ada@example.com"
    phone := some "555-0100", location := none, linkedIn := none }

def exJob : WorkExperience :=
  { company := "Acme Corp", title := "Engineer", startDate := "2020-01"
    endDate := "Present", bullets := ["Built things"] }

def exEdu : Education :=
  { institution := "MIT", degree := "BS", field := "CS", graduationDate := "2019" }

def exOriginal : ResumeData :=
  { personalInfo := exPersonal, summary := some "Engineer."
    workExperience := [exJob], education := [exEdu]
    skills := ["Machine Learning"]
    certifications := some ["AWS Certified Solutions Architect (2022)"] }

def exTailoredPI : TailoredPersonalInfo :=
  { name := some "Ada Lovelace", email := some "ada@example.com"
    phone := none, location := none, linkedIn := none }

def exTailoredJob : TailoredExperience :=
  { company := some "Acme Corp", title := some "Engineer", startDate := some "2020-01"
    endDate := some "Present", bullets := some ["Built things"] }

def exTailoredEdu : TailoredEducation :=
  { institution := some "MIT", degree := some "BS", field := some "CS"
    graduationDate := some "2019" }

/-- Tailored resume whose name was tampered with. -/
def c1Tailored : TailoredResume :=
  { personalInfo := some { exTailoredPI with name := some "Eve Mallory" }
    summary := none, workExperience := some [exTailoredJob]
    education := some [exTailoredEdu], skills := none, certifications := none }

/-- Witness for C1: a tampered name at a concrete input fails with the
identity-mismatch error. -/
theorem truth_lock_identity_witness :
    validateTailoredResume c1Tailored exOriginal = .error .identityMismatchName :=
  ((truth_lock_identity c1Tailored exOriginal).2
    { exTailoredPI with name := some "Eve Mallory" } rfl).1 (by decide)

/-- C2: every accepted output has no more work-experience and education
entries than the original, and a tailored work-experience list longer than
the original's fails with the fabricated-entry error. -/
theorem count_monotonicity (t : TailoredResume) (orig : ResumeData) :
    (∀ r, validateTailoredResume t orig = .ok r →
      r.workExperience.length ≤ orig.workExperience.length ∧
      r.education.length ≤ orig.education.length) ∧
    (∀ pi wes, validatePersonalInfo t.personalInfo orig.personalInfo = .ok pi →
      t.workExperience = some wes →
      wes.length > orig.workExperience.length →
      validateTailoredResume t orig = .error .fabricatedEntry) := by
  constructor
  · intro r h
    obtain ⟨pi, wes, newWes, edus, newEdus, certs, -, -, hlen, hexp, -, hlen2, hedu, -, hr⟩ :=
      validate_ok_inv h
    rw [hr]
    constructor
    · show newWes.length ≤ _
      rw [validateExpList_length hexp]
      exact hlen
    · show newEdus.length ≤ _
      rw [validateEduList_length hedu]
      exact hlen2
  · intro pi wes hpi hwes hgt
    unfold validateTailoredResume
    rw [hpi]
    dsimp only
    rw [hwes]
    dsimp only
    rw [if_pos hgt]

/-- Tailored resume with more jobs than the original (scenario D shape). -/
def c2Tailored : TailoredResume :=
  { personalInfo := some exTailoredPI, summary := none
    workExperience := some [exTailoredJob, exTailoredJob]
    education := some [exTailoredEdu], skills := none, certifications := none }

/-- Witness for C2: two tailored jobs against one original job fail with the
fabricated-entry error. -/
theorem count_monotonicity_witness :
    validateTailoredResume c2Tailored exOriginal = .error .fabricatedEntry :=
  (count_monotonicity c2Tailored exOriginal).2 exPersonal [exTailoredJob, exTailoredJob]
    rfl rfl (by decide)

/- ===== Skill-stage lemmas ===== -/

/-- Every original skill matches itself under the normalized relations. -/
theorem skillIsValid_self {origSkills : List String} {s : String} (h : s ∈ origSkills) :
    skillIsValid origSkills s = true := by
  unfold skillIsValid
  dsimp only
  rw [Bool.or_eq_true]
  left
  simpa using List.mem_map_of_mem normalizeSkill h

/-- Every skill surviving the skills stage matches some original skill. -/
theorem validateSkills_all_valid (os : List String) (ts : Option (List String)) :
    ∀ x ∈ validateSkills os ts, skillIsValid os x = true := by
  intro x hx
  unfold validateSkills at hx
  dsimp only at hx
  split at hx
  next hinv =>
    have h0 : (ts.getD os).filter (fun s => !skillIsValid os s) = [] := by
      simpa [List.isEmpty_iff] using hinv
    have := List.filter_eq_nil_iff.mp h0 x hx
    simpa using this
  next hinv =>
    split at hx
    next hkept => exact skillIsValid_self hx
    next hkept =>
      have hmem := List.mem_filter.mp hx
      have hnc := hmem.2
      simp at hnc
      rcases hnc with hnc | hnc
      · exact absurd hmem.1 hnc
      · exact hnc

/-- When the tailored skill list is present, non-empty, and entirely invalid,
the skills stage restores the full original list. -/
theorem validateSkills_restore (os skills0 : List String)
    (hne : skills0 ≠ []) (hall : ∀ s ∈ skills0, skillIsValid os s = false) :
    validateSkills os (some skills0) = os := by
  unfold validateSkills
  simp only [Option.getD_some]
  have hinv : skills0.filter (fun s => !skillIsValid os s) = skills0 :=
    List.filter_eq_self.mpr (fun a ha => by simp [hall a ha])
  rw [hinv]
  have hkept : skills0.filter (fun s => !skills0.contains s) = [] :=
    List.filter_eq_nil_iff.mpr (fun a ha => by simp [ha])
  rw [hkept]
  simp [List.isEmpty_iff, hne]

/- ===== C3 ===== -/

/-- Tailored resume carrying the dash variant of the original's
space-separated skill (scenario B shape). -/
def c3Tailored : TailoredResume :=
  { personalInfo := some exTailoredPI, summary := none
    workExperience := some [exTailoredJob], education := some [exTailoredEdu]
    skills := some ["Machine-Learning"], certifications := none }

/-- The repaired output: the dash-variant skill was rejected and the original
skill list restored. -/
def c3Result : ResumeData :=
  { personalInfo := exPersonal, summary := none, workExperience := [exJob]
    education := [exEdu], skills := ["Machine Learning"], certifications := none }

/-- C3 counterexample: "Machine-Learning" against an original list containing
"Machine Learning" is NOT judged a normalized match (the normalization maps
dash glyphs to a plain dash but never to a space), so the skill is rejected,
and — being the only tailored skill — the restore-original fallback fires:
the accepted output carries the original "Machine Learning", not the tailored
"Machine-Learning". -/
theorem skill_dash_space_counterexample :
    skillIsValid exOriginal.skills "Machine-Learning" = false ∧
    validateTailoredResume c3Tailored exOriginal = .ok c3Result := ⟨by decide, by decide⟩

/-- C3 amended: a tailored skill "Machine-Learning" against an original
"Machine Learning" is rejected by the normalized matching; it is removed, and
since it was the only tailored skill the all-rejected fallback fires,
restoring the full original skill list in the accepted output. -/
theorem skill_dash_space_amended :
    validateSkills exOriginal.skills (some ["Machine-Learning"]) = exOriginal.skills ∧
    (validateTailoredResume c3Tailored exOriginal).map ResumeData.skills =
      .ok exOriginal.skills := ⟨by decide, by decide⟩

/- ===== C4 ===== -/

/-- Tailored resume arriving with a present but empty skills list. -/
def c4Tailored : TailoredResume :=
  { personalInfo := some exTailoredPI, summary := none
    workExperience := some [exTailoredJob], education := some [exTailoredEdu]
    skills := some [], certifications := none }

/-- Accepted output for c4Tailored: the empty skill list survives. -/
def c4Result : ResumeData :=
  { personalInfo := exPersonal, summary := none, workExperience := [exJob]
    education := [exEdu], skills := [], certifications := none }

/-- C4 counterexample: a tailored resume that ARRIVES with an empty skills
list is accepted with an empty skills list even though the original list is
non-empty — the restore-original fallback only fires when the removal of
rejected skills emptied the list, not when it arrived empty. -/
theorem empty_skills_counterexample :
    exOriginal.skills ≠ [] ∧
    validateTailoredResume c4Tailored exOriginal = .ok c4Result ∧
    c4Result.skills = [] := ⟨by decide, by decide, rfl⟩

/-- C4 amended: every skill in an accepted output matches some original skill
under the normalized relations, and the full original list is restored
exactly when at least one tailored skill was removed and the removal emptied
the list; a tailored resume arriving with an empty skills list keeps the
empty list. -/
theorem skill_subset_amended (t : TailoredResume) (orig : ResumeData) :
    (∀ r, validateTailoredResume t orig = .ok r →
      ∀ s ∈ r.skills, skillIsValid orig.skills s = true) ∧
    (∀ r, validateTailoredResume t orig = .ok r → t.skills = some [] →
      r.skills = []) ∧
    (∀ skills0, t.skills = some skills0 → skills0 ≠ [] →
      (∀ s ∈ skills0, skillIsValid orig.skills s = false) →
      ∀ r, validateTailoredResume t orig = .ok r → r.skills = orig.skills) := by
  refine ⟨?_, ?_, ?_⟩
  · intro r h s hs
    obtain ⟨pi, wes, newWes, edus, newEdus, certs, -, -, -, -, -, -, -, -, hr⟩ :=
      validate_ok_inv h
    rw [hr] at hs
    exact validateSkills_all_valid orig.skills t.skills s hs
  · intro r h hempty
    obtain ⟨pi, wes, newWes, edus, newEdus, certs, -, -, -, -, -, -, -, -, hr⟩ :=
      validate_ok_inv h
    rw [hr]
    show validateSkills orig.skills t.skills = []
    rw [hempty]
    rfl
  · intro skills0 hsk hne hall r h
    obtain ⟨pi, wes, newWes, edus, newEdus, certs, -, -, -, -, -, -, -, -, hr⟩ :=
      validate_ok_inv h
    rw [hr]
    show validateSkills orig.skills t.skills = orig.skills
    rw [hsk]
    exact validateSkills_restore _ _ hne hall

/-- Witness for C4's amended theorem: applying it to the concrete
arrived-empty tailored resume yields the empty accepted skill list. -/
theorem skill_subset_amended_witness : c4Result.skills = [] :=
  (skill_subset_amended c4Tailored exOriginal).2.1 c4Result rfl rfl

/- ===== C5 ===== -/

/-- A successful certifications stage passes the tailored list through
unchanged. -/
theorem validateCerts_ok_pass {oc tc : Option (List String)} {c : Option (List String)}
    (h : validateCerts oc tc = .ok c) : c = tc := by
  cases tc with
  | none =>
    unfold validateCerts at h
    injection h with h3
    rw [← h3]
  | some cs =>
    unfold validateCerts at h
    dsimp only at h
    split at h
    next => cases h
    next => injection h with h3; rw [← h3]

/-- A successful certifications stage implies every tailored certification
matches an original one case-insensitively after trimming. -/
theorem validateCerts_ok_all {oc : Option (List String)} {cs : List String}
    {z : Option (List String)} (h : validateCerts oc (some cs) = .ok z) :
    ∀ c ∈ cs, ((oc.getD []).map certNormalize).contains (certNormalize c) = true := by
  unfold validateCerts at h
  dsimp only at h
  split at h
  next => cases h
  next hf =>
    intro c hc
    have := List.find?_eq_none.mp hf c hc
    simpa using this

/-- C5: validation accepts a certification list only when every entry
case-insensitively (after trimming) matches an original certification, and a
list containing any non-matching entry can never be accepted. -/
theorem certification_hard_fail (t : TailoredResume) (orig : ResumeData) :
    (∀ r certs, validateTailoredResume t orig = .ok r → r.certifications = some certs →
      ∀ c ∈ certs,
        ((orig.certifications.getD []).map certNormalize).contains (certNormalize c) = true) ∧
    (∀ certs c, t.certifications = some certs → c ∈ certs →
      ((orig.certifications.getD []).map certNormalize).contains (certNormalize c) = false →
      ∀ r, validateTailoredResume t orig ≠ .ok r) := by
  constructor
  · intro r certs h hc c hcc
    obtain ⟨pi, wes, newWes, edus, newEdus, certs', -, -, -, -, -, -, -, hcert, hr⟩ :=
      validate_ok_inv h
    have hpass : certs' = t.certifications := validateCerts_ok_pass hcert
    rw [hr] at hc
    have htc : t.certifications = some certs := by rw [← hpass]; exact hc
    rw [htc] at hcert
    exact validateCerts_ok_all hcert c hcc
  · intro certs c hcerts hc hfalse r h
    obtain ⟨pi, wes, newWes, edus, newEdus, certs', -, -, -, -, -, -, -, hcert, -⟩ :=
      validate_ok_inv h
    rw [hcerts] at hcert
    have := validateCerts_ok_all hcert c hc
    rw [hfalse] at this
    cases this

/-- Tailored resume adding a certification absent from the original
(scenario C shape). -/
def c5Tailored : TailoredResume :=
  { personalInfo := some exTailoredPI, summary := none
    workExperience := some [exTailoredJob], education := some [exTailoredEdu]
    skills := none, certifications := some ["AWS Certified Developer"] }

/-- Witness for C5: the added certification produces the concrete
fabricated-certification failure, and no accepted output exists. -/
theorem certification_hard_fail_witness :
    validateTailoredResume c5Tailored exOriginal =
      .error (.fabricatedCertification "AWS Certified Developer") ∧
    validateTailoredResume c5Tailored exOriginal ≠ .ok exOriginal :=
  ⟨by decide,
   (certification_hard_fail c5Tailored exOriginal).2 ["AWS Certified Developer"]
     "AWS Certified Developer" rfl (by simp) (by decide) exOriginal⟩

/- ===== C6 ===== -/

/-- C6 amended: an accepted work-experience entry always carries the matched
original's startDate and endDate, and a present endDate differing from the
matched original's always fails with the date-tampering error — with no
exception for open-ended original entries. -/
theorem endDate_immutable_amended (origList : List WorkExperience) (e : TailoredExperience) :
    (∀ w, validateExp origList e = .ok w →
      ∃ o, findOriginalExp origList e.company e.startDate = some o ∧
        w.startDate = o.startDate ∧ w.endDate = o.endDate) ∧
    (∀ o, findOriginalExp origList e.company e.startDate = some o →
      fillStr e.startDate o.startDate = o.startDate →
      fillStr e.endDate o.endDate ≠ o.endDate →
      validateExp origList e = .error (.dateTamperingEnd (fillStr e.company o.company))) := by
  constructor
  · intro w h
    unfold validateExp at h
    cases hf : findOriginalExp origList e.company e.startDate with
    | none => rw [hf] at h; cases h
    | some o =>
      rw [hf] at h
      dsimp only at h
      split_ifs at h with h1 h2
      injection h with h3
      refine ⟨o, rfl, ?_, ?_⟩
      · rw [← h3]; exact not_not.mp h1
      · rw [← h3]; exact not_not.mp h2
  · intro o hf heq hne
    unfold validateExp
    rw [hf]
    dsimp only
    rw [if_neg (not_not.mpr heq), if_pos hne]

/-- Tailored entry rewriting the endDate of an open-ended original job. -/
def c6TailoredJob : TailoredExperience :=
  { exTailoredJob with endDate := some "2024-01" }

def c6Tailored : TailoredResume :=
  { personalInfo := some exTailoredPI, summary := none
    workExperience := some [c6TailoredJob]
    education := some [exTailoredEdu], skills := none, certifications := none }

/-- C6 counterexample: the original entry's endDate is the open-ended
"Present", yet a tailored entry with a different endDate is REJECTED with the
date-tampering error — the claimed open-ended exception does not exist. -/
theorem endDate_open_ended_counterexample :
    exJob.endDate = "Present" ∧
    validateTailoredResume c6Tailored exOriginal =
      .error (.dateTamperingEnd "Acme Corp") := ⟨rfl, by decide⟩

/-- Witness for C6's amended theorem at the concrete open-ended entry. -/
theorem endDate_immutable_amended_witness :
    validateExp [exJob] c6TailoredJob = .error (.dateTamperingEnd "Acme Corp") :=
  (endDate_immutable_amended [exJob] c6TailoredJob).2 exJob (by decide) (by decide) (by decide)

/- ===== C7 ===== -/

/-- C7 amended: once the education count check has passed (the index is in
range of the original list), the per-entry education stage NEVER fails — an
institution matching no original entry is accepted verbatim, its missing
sub-fields back-filled from the positional original entry. -/
theorem unknown_education_amended (origList : List Education) (i : Nat)
    (e : TailoredEducation) (h : i < origList.length) :
    ∃ ed, validateEdu origList i e = .ok ed ∧
      ∀ s, e.institution = some s → s ≠ "" → ed.institution = s := by
  obtain ⟨o, ho⟩ : ∃ o, (match origList.find? (fun o => optEqStr e.institution o.institution) with
      | some o => some o
      | none => origList[i]?) = some o := by
    cases hf : origList.find? (fun o => optEqStr e.institution o.institution) with
    | some o => exact ⟨o, rfl⟩
    | none =>
      refine ⟨origList[i], ?_⟩
      dsimp only
      exact List.getElem?_eq_getElem h
  unfold validateEdu
  dsimp only
  rw [ho]
  by_cases hm : jsMissing e.institution = true
  · rw [if_pos hm]
    refine ⟨_, rfl, ?_⟩
    intro s hs hsne
    rw [hs] at hm
    simp [jsMissing] at hm
    exact absurd hm hsne
  · rw [if_neg hm]
    refine ⟨_, rfl, ?_⟩
    intro s hs hsne
    dsimp only
    rw [hs]
    rfl

/-- Tailored resume whose education entry names an institution absent from
the original resume. -/
def c7TailoredEdu : TailoredEducation :=
  { institution := some "Stanford University", degree := some "BS"
    field := some "CS", graduationDate := some "2019" }

def c7Tailored : TailoredResume :=
  { personalInfo := some exTailoredPI, summary := none
    workExperience := some [exTailoredJob]
    education := some [c7TailoredEdu]
    skills := none, certifications := none }

/-- C7 counterexample: the original resume's only institution is "MIT", yet a
tailored education entry naming "Stanford University" is ACCEPTED (the lookup
falls back to the positional original entry) — no UnknownEducation failure
occurs. -/
theorem unknown_education_counterexample :
    exOriginal.education.map Education.institution = ["MIT"] ∧
    (validateTailoredResume c7Tailored exOriginal).map
      (fun r => r.education.map Education.institution) = .ok ["Stanford University"] :=
  ⟨rfl, by decide⟩

/-- Witness for C7's amended theorem at the concrete unknown institution. -/
theorem unknown_education_amended_witness :
    ∃ ed, validateEdu exOriginal.education 0 c7TailoredEdu = .ok ed ∧
      ∀ s, c7TailoredEdu.institution = some s → s ≠ "" → ed.institution = s :=
  unknown_education_amended exOriginal.education 0 c7TailoredEdu (by decide)

/- ===== C8 ===== -/

/-- C8: the page-break predicate fires exactly when the cursor plus the
block's required height would cross the bottom margin (cursorY +
requiredHeight > pageHeight - bottomMargin), never before; on a break the
cursor is reset to the top margin and the page count advances by one with no
content emitted by the break itself; without a break the state is untouched. -/
theorem page_break_iff (ds : DesignSystem) (st : RenderState) (h : ℚ) (cur : Option ℚ) :
    ((checkPageBreak ds st h cur).2 = true ↔
      cur.getD st.yPos + h > pageHeight - ds.spacing.pageMargin.bottom) ∧
    ((checkPageBreak ds st h cur).2 = true →
      (checkPageBreak ds st h cur).1.yPos = ds.spacing.pageMargin.top ∧
      (checkPageBreak ds st h cur).1.page = st.page + 1 ∧
      (checkPageBreak ds st h cur).1.instrs = st.instrs) ∧
    ((checkPageBreak ds st h cur).2 = false → (checkPageBreak ds st h cur).1 = st) := by
  unfold checkPageBreak
  dsimp only
  split_ifs with hcond
  · simp [hcond]
  · simp [hcond]

/-- Witness for C8: a cursor at 40pt with an 800pt block on the professional
theme breaks the page, resetting the cursor to the top margin on page 2. -/
theorem page_break_iff_witness :
    (checkPageBreak (getDesignSystemWithPreset ThemePreset.professional)
      { page := 1, instrs := [], yPos := 40 } 800 none).1.yPos =
      (getDesignSystemWithPreset ThemePreset.professional).spacing.pageMargin.top ∧
    (checkPageBreak (getDesignSystemWithPreset ThemePreset.professional)
      { page := 1, instrs := [], yPos := 40 } 800 none).1.page = 2 := by
  have hmain := page_break_iff (getDesignSystemWithPreset ThemePreset.professional)
    { page := 1, instrs := [], yPos := 40 } 800 none
  have hb : (checkPageBreak (getDesignSystemWithPreset ThemePreset.professional)
      { page := 1, instrs := [], yPos := 40 } 800 none).2 = true := by
    rw [hmain.1]
    show (40 : ℚ) + 800 > pageHeight - _
    norm_num [getDesignSystemWithPreset, PROFESSIONAL_PRESET, DESIGN_SYSTEM_BASE, pageHeight]
  obtain ⟨hy, hp, -⟩ := hmain.2.1 hb
  exact ⟨hy, hp⟩

/- ===== C9 ===== -/

/-- C9: PDF rendering is deterministic — the page count and the positioned
instruction stream (every emitted text, rule and rectangle) are functions of
the resume data, the theme preset and the injected text-measurement
primitive alone; the wall clock stamped into the visual metadata never
reaches the layout, so two runs over the same input agree exactly. -/
theorem pagination_determinism (split : SplitFn) (data : ResumeData)
    (theme : ThemePreset) (now1 now2 : String) :
    (exportResumeToPDF split data theme now1).pages =
      (exportResumeToPDF split data theme now2).pages ∧
    (exportResumeToPDF split data theme now1).instrs =
      (exportResumeToPDF split data theme now2).instrs ∧
    (exportResumeToPDF split data theme now1).pages =
      (renderResumeDoc split data theme).page := ⟨rfl, rfl, rfl⟩

/- ===== C10 ===== -/

/-- Bounds on the two-decimal JS rounding of a value in [600/9, 100]. -/
theorem jsRound2_bounds {x : ℚ} (h1 : 600 / 9 ≤ x) (h2 : x ≤ 100) :
    600 / 9 ≤ jsRound2 x ∧ jsRound2 x ≤ 100 := by
  unfold jsRound2
  constructor
  · have hfl : (6667 : ℤ) ≤ ⌊x * 100 + 1 / 2⌋ := by
      rw [Int.le_floor]
      push_cast
      linarith
    have hq : (6667 : ℚ) ≤ ((⌊x * 100 + 1 / 2⌋ : ℤ) : ℚ) := by exact_mod_cast hfl
    linarith
  · have hle : ((⌊x * 100 + 1 / 2⌋ : ℤ) : ℚ) ≤ x * 100 + 1 / 2 := Int.floor_le _
    have hfl : ⌊x * 100 + 1 / 2⌋ ≤ (10000 : ℤ) := by
      by_contra hgt
      push_neg at hgt
      have : (10001 : ℚ) ≤ ((⌊x * 100 + 1 / 2⌋ : ℤ) : ℚ) := by exact_mod_cast hgt
      linarith
    have hq : ((⌊x * 100 + 1 / 2⌋ : ℤ) : ℚ) ≤ 10000 := by exact_mod_cast hfl
    linarith

/-- Each reducible sub-score is clamped into [0, 100]. -/
theorem scoreClamp_bounds (k : Nat) :
    0 ≤ (if k > 0 then max (0 : ℚ) (100 - (k : ℚ) * 10) else 100) ∧
    (if k > 0 then max (0 : ℚ) (100 - (k : ℚ) * 10) else 100) ≤ 100 := by
  split_ifs with hk
  · constructor
    · exact le_max_left 0 _
    · apply max_le
      · norm_num
      · have hpos : (0 : ℚ) ≤ (k : ℚ) * 10 := by positivity
        linarith
  · norm_num

/-- C10: the Visual QA overall score always lies in [600/9, 100]: it is the
mean of nine sub-scores of which six are the constant 100 and the remaining
three (typography.fontConsistency, spacing.marginConsistency,
visual.colorPalette) are clamped into [0, 100] via max(0, 100 − 10·issues);
required-element issues reduce no sub-score. -/
theorem visual_qa_score_bounds (data : ResumeData) :
    600 / 9 ≤ (checkVisualConsistency data).overall ∧
    (checkVisualConsistency data).overall ≤ 100 ∧
    (checkVisualConsistency data).typography.sizeConsistency = 100 ∧
    (checkVisualConsistency data).typography.weightConsistency = 100 ∧
    (checkVisualConsistency data).spacing.sectionGaps = 100 ∧
    (checkVisualConsistency data).spacing.bulletAlignment = 100 ∧
    (checkVisualConsistency data).visual.lineAlignment = 100 ∧
    (checkVisualConsistency data).visual.whiteSpace = 100 := by
  have hf := scoreClamp_bounds (checkTypography data).length
  have hm := scoreClamp_bounds (checkSpacing data).length
  have hc := scoreClamp_bounds (checkVisualElements data).length
  unfold checkVisualConsistency
  dsimp only
  refine ⟨?_, ?_, rfl, rfl, rfl, rfl, rfl, rfl⟩
  · exact (jsRound2_bounds (by linarith [hf.1, hm.1, hc.1])
      (by linarith [hf.2, hm.2, hc.2])).1
  · exact (jsRound2_bounds (by linarith [hf.1, hm.1, hc.1])
      (by linarith [hf.2, hm.2, hc.2])).2

end AdaptiveResume
